import Mathlib

/-
  Verification of the tool-call dispatch and execution layer of the
  WhatAGent repository.

  The development shallowly embeds the relevant source functions:
  - the JavaScript string primitives the database validation relies on
    (trim, toLowerCase, toUpperCase, includes), modelled on character lists;
  - DatabaseService (dbService.ts): executeQuery with pool bookkeeping,
    validateQuery, formatResult, safeExecute, getTables;
  - the query route (routes.ts POST /query);
  - the client query service and the tool handlers (toolHandlers module);
  - the dispatcher handleToolCall and the batch loop onToolCall (App.tsx);
  - the command executor (server/index.ts ExecuteFileTool.execute) and the
    client executeCommand of the shell tool module.

  Backend effects (the PostgreSQL driver) are an oracle parameter DbEnv, and
  the connection pool is an explicit acquire/release counter state, so that
  theorems can quantify over every backend behaviour, success or fault.
-/

namespace WhatAGent

/-- Embedding of a JavaScript startsWith test on character lists: does the
first list begin with the second. -/
def startsWithChars : List Char → List Char → Bool
  | _, [] => true
  | [], _ :: _ => false
  | a :: s, b :: p => a == b && startsWithChars s p

/-- Embedding of the JavaScript String.prototype.includes substring test on
character lists. -/
def containsChars : List Char → List Char → Bool
  | [], p => p.isEmpty
  | h :: t, p => startsWithChars (h :: t) p || containsChars t p

/-- JavaScript String.prototype.includes. -/
def jsIncludes (s pat : String) : Bool := containsChars s.data pat.data

/-- JavaScript String.prototype.trim on character lists: drop whitespace at
both ends. -/
def trimChars (l : List Char) : List Char :=
  ((l.dropWhile Char.isWhitespace).reverse.dropWhile Char.isWhitespace).reverse

/-- JavaScript String.prototype.trim. -/
def jsTrim (s : String) : String := String.mk (trimChars s.data)

/-- JavaScript String.prototype.toLowerCase (ASCII range, as used by the
source on SQL text). -/
def jsToLower (s : String) : String := String.mk (s.data.map Char.toLower)

/-- JavaScript String.prototype.toUpperCase (ASCII range). -/
def jsToUpper (s : String) : String := String.mk (s.data.map Char.toUpper)

/-- One database row, a mapping from column names to values. -/
abbrev Row := List (String × String)

/-- Raw result of the pg driver client.query call. rowCount is nullable in
the driver, hence the Option. -/
structure PgResult where
  rows : List Row
  rowCount : Option Nat
  deriving DecidableEq

/-- Oracle for the database backend: what client.query returns (or throws,
as an error message) for a given query text and parameters. -/
structure DbEnv where
  runQuery : String → Option (List String) → Except String PgResult

/-- Explicit pool bookkeeping: how many connections have been taken from and
returned to the pool. -/
structure PoolState where
  acquired : Nat
  released : Nat
  deriving DecidableEq

/-- The formatted query response sent to clients: rows and rowCount. -/
structure QueryResponse where
  rows : List Row
  rowCount : Nat
  deriving DecidableEq

namespace DatabaseService

/-- dbService.ts executeQuery: take a client from the pool, run the query in
a try block, release the client in the finally block, so the release happens
on the success path and on the fault path alike. -/
def executeQuery (env : DbEnv) (query : String) (params : Option (List String))
    (s : PoolState) : Except String PgResult × PoolState :=
  let s1 : PoolState := { acquired := s.acquired + 1, released := s.released }
  let r := env.runQuery query params
  (r, { acquired := s1.acquired, released := s1.released + 1 })

/-- dbService.ts validateQuery: reject empty text, reject the forbidden
keywords drop and truncate anywhere in the lowercased trimmed text, and for
the exact operation string DELETE require a where substring. -/
def validateQuery (query : String) (operation : String) : Except String Unit :=
  if jsTrim query = "" then Except.error "Query cannot be empty"
  else
    let sanitizedQuery := jsTrim (jsToLower query)
    if jsIncludes sanitizedQuery "drop" || jsIncludes sanitizedQuery "truncate" then
      Except.error "Unsafe query detected"
    else if operation == "DELETE" && !(jsIncludes sanitizedQuery "where") then
      Except.error "DELETE operations require a WHERE clause"
    else Except.ok ()

/-- dbService.ts formatResult: rows plus rowCount with null coalesced to 0. -/
def formatResult (r : PgResult) : QueryResponse :=
  { rows := r.rows, rowCount := r.rowCount.getD 0 }

/-- dbService.ts safeExecute: validate first (validation errors propagate
with their own message), then execute and format; execution faults are
rethrown wrapped in a Query execution failed message. -/
def safeExecute (env : DbEnv) (query operation : String)
    (params : Option (List String)) (s : PoolState) :
    Except String QueryResponse × PoolState :=
  match validateQuery query operation with
  | Except.error m => (Except.error m, s)
  | Except.ok _ =>
    match executeQuery env query params s with
    | (Except.ok r, s1) => (Except.ok (formatResult r), s1)
    | (Except.error m, s1) => (Except.error ("Query execution failed: " ++ m), s1)

/-- The fixed catalog query of dbService.ts getTables (quote characters of
the SQL literal elided). -/
def listTablesQueryText : String :=
  "SELECT table_name, table_type FROM information_schema.tables WHERE table_schema = public ORDER BY table_name"

/-- dbService.ts getTables: run the fixed catalog query; faults propagate. -/
def getTables (env : DbEnv) (s : PoolState) :
    Except String QueryResponse × PoolState :=
  match executeQuery env listTablesQueryText none s with
  | (Except.ok r, s1) => (Except.ok (formatResult r), s1)
  | (Except.error m, s1) => (Except.error m, s1)

end DatabaseService

/-- Result of the POST query route: a 200 with the response body, a 400 with
an error message, or a 500 with error and details. -/
inductive QueryRouteResult where
  | ok (r : QueryResponse)
  | badRequest (error : String)
  | serverFault (error details : String)
  deriving DecidableEq

/-- JavaScript falsiness of an optional string body field: absent or the
empty string. -/
def isFalsy : Option String → Bool
  | none => true
  | some s => s == ""

/-- The fixed catalog query of the DESCRIBE case of routes.ts (whitespace
normalised). -/
def describeColumnsQueryText : String :=
  "SELECT column_name, data_type, character_maximum_length, column_default, is_nullable FROM information_schema.columns WHERE table_name = $1"

/-- routes.ts POST /query: require operation, require query unless the raw
operation is LIST_TABLES, then switch on the uppercased operation; thrown
errors become a 500 with details carrying the thrown message. -/
def postQuery (env : DbEnv) (query operation : Option String)
    (params : Option (List String)) (s : PoolState) :
    QueryRouteResult × PoolState :=
  if isFalsy operation then
    (QueryRouteResult.badRequest "Operation type is required", s)
  else
    let op := operation.getD ""
    if isFalsy query && !(op == "LIST_TABLES") then
      (QueryRouteResult.badRequest "Query is required for this operation", s)
    else
      let q := query.getD ""
      let upo := jsToUpper op
      if upo == "SELECT" || upo == "INSERT" || upo == "UPDATE" || upo == "DELETE" then
        match DatabaseService.safeExecute env q op params s with
        | (Except.ok r, s1) => (QueryRouteResult.ok r, s1)
        | (Except.error m, s1) => (QueryRouteResult.serverFault "Query execution failed" m, s1)
      else if upo == "LIST_TABLES" then
        match DatabaseService.getTables env s with
        | (Except.ok r, s1) => (QueryRouteResult.ok r, s1)
        | (Except.error m, s1) => (QueryRouteResult.serverFault "Query execution failed" m, s1)
      else if upo == "DESCRIBE" then
        match DatabaseService.safeExecute env describeColumnsQueryText "SELECT" (some [q]) s with
        | (Except.ok r, s1) => (QueryRouteResult.ok r, s1)
        | (Except.error m, s1) => (QueryRouteResult.serverFault "Query execution failed" m, s1)
      else (QueryRouteResult.badRequest ("Unsupported operation: " ++ op), s)

/-- Client-side query service: POST the body to the query route and return
the parsed body, turning a non-ok response into a thrown error whose message
prefers the details field over the error field. The tools/database-tool
module file is not among the sources; this follows the identical in-repo
implementation DatabaseService.executeQuery of Database.tsx, which matches
the data-store surface of the specification. -/
def clientExecuteQuery (env : DbEnv) (query operation : Option String)
    (params : Option (List String)) (s : PoolState) :
    Except String QueryResponse × PoolState :=
  match postQuery env query operation params s with
  | (QueryRouteResult.ok r, s1) => (Except.ok r, s1)
  | (QueryRouteResult.badRequest e, s1) => (Except.error e, s1)
  | (QueryRouteResult.serverFault _ d, s1) => (Except.error d, s1)

/-- Payload variants a handler can place in the output field of a tool
response: a query response for the database tool, captured output text for
the shell tool. -/
inductive ToolOutput where
  | dbRes (r : QueryResponse)
  | shellOut (s : String)
  deriving DecidableEq

/-- The ToolResponse envelope of the client: success flag with optional
output and error fields. -/
structure ToolResponse where
  success : Bool
  output : Option ToolOutput := none
  error : Option String := none
  deriving DecidableEq

/-- toolHandlers handleDatabaseQuery: call the query service; a returned
body becomes a success response carrying it, a thrown error is caught and
becomes a failure response carrying the message. -/
def handleDatabaseQuery (env : DbEnv) (query operation : Option String)
    (params : Option (List String)) (s : PoolState) : ToolResponse × PoolState :=
  match clientExecuteQuery env query operation params s with
  | (Except.ok r, s1) => ({ success := true, output := some (ToolOutput.dbRes r) }, s1)
  | (Except.error m, s1) => ({ success := false, error := some m }, s1)

/-- The argument bag of a function call: the dispatcher destructures the
fields it needs, absent fields read as undefined, hence the Options. -/
structure Args where
  query : Option String := none
  operation : Option String := none
  params : Option (List String) := none
  shell : Option String := none
  command : Option String := none
  workingDir : Option String := none
  json_graph : Option String := none
  deriving DecidableEq

/-- End to end path of one query_database call: the dispatcher hands the
destructured (possibly absent) arguments to handleDatabaseQuery, which goes
through the client service to the route and the database service. -/
def queryEndToEnd (env : DbEnv) (a : Args) (s : PoolState) : ToolResponse × PoolState :=
  handleDatabaseQuery env a.query a.operation a.params s

/-- One function call of a batch: name, correlation id and arguments. -/
structure FunctionCall where
  name : String
  id : String
  args : Args
  deriving DecidableEq

/-- One entry of the functionResponses sequence given to sendToolResponse. -/
structure FunctionResponse where
  output : ToolResponse
  id : String
  deriving DecidableEq

/-- The payload of one sendToolResponse invocation. -/
structure SendPayload where
  functionResponses : List FunctionResponse
  deriving DecidableEq

/-- The handler environment injected into handleToolCall. A handler either
completes with a ToolResponse or faults with a thrown message; the injected
record makes the dispatch theorems quantify over every handler behaviour,
faulting handlers included. -/
structure Handlers where
  database : Option String → Option String → Option (List String) → Except String ToolResponse
  shell : Option String → Option String → Option String → Except String ToolResponse
  altair : Option String → Except String ToolResponse

/-- The switch of handleToolCall: route the call by name to the handler,
with the default case throwing Unknown function. -/
def dispatchOutcome (h : Handlers) (c : FunctionCall) : Except String ToolResponse :=
  if c.name = "query_database" then h.database c.args.query c.args.operation c.args.params
  else if c.name = "execute_shell_command" then h.shell c.args.shell c.args.command c.args.workingDir
  else if c.name = "render_altair" then h.altair c.args.json_graph
  else Except.error ("Unknown function: " ++ c.name)

/-- The single response handleToolCall sends for one call: the try branch
wraps the handler result, the catch branch wraps the thrown message in a
failure envelope; both carry the correlation id passed to the dispatcher. -/
def responseEnvelope (h : Handlers) (c : FunctionCall) (fid : String) : FunctionResponse :=
  match dispatchOutcome h c with
  | Except.ok r => { output := r, id := fid }
  | Except.error m => { output := { success := false, error := some m }, id := fid }

/-- toolHandlers handleToolCall: one sendToolResponse invocation per call,
with a single-element functionResponses sequence. -/
def handleToolCall (h : Handlers) (c : FunctionCall) (fid : String) : SendPayload :=
  { functionResponses := [responseEnvelope h c fid] }

/-- App.tsx onToolCall: iterate over the functionCalls of the batch and run
handleToolCall for each, with the id taken from the call. -/
def onToolCall (h : Handlers) (calls : List FunctionCall) : List SendPayload :=
  calls.map (fun c => handleToolCall h c c.id)

/-- All function responses a batch produces, across every send. -/
def batchResponses (h : Handlers) (calls : List FunctionCall) : List FunctionResponse :=
  (onToolCall h calls).flatMap (fun p => p.functionResponses)

/-- Outcome of the child process as delivered to the exec callback: err is
none when the command exited with status zero, and carries the exit code
otherwise; stdout and stderr are captured independently. -/
structure ProcessResult where
  err : Option Int
  stdout : String
  stderr : String
  deriving DecidableEq

/-- The body of the process execution response of the server. -/
structure ExecResult where
  success : Bool
  exitCode : Option Int
  output : String
  error : String
  deriving DecidableEq

namespace ExecuteFileTool

/-- server/index.ts ExecuteFileTool.execute: resolve with success exactly
when the callback error is absent, the error code as exitCode, stdout as
output and stderr as error. -/
def execute (p : ProcessResult) : ExecResult :=
  { success := p.err.isNone, exitCode := p.err, output := p.stdout, error := p.stderr }

end ExecuteFileTool

/-- The body the client posts to the execute endpoint. -/
structure ExecuteRequest where
  command : String
  timeout : Nat
  deriving DecidableEq

/-- shell-executor-tool executeCommand: format the command as the shell name
followed by the /c switch and the command, with a fixed timeout of 30000;
the workingDir parameter is accepted and discarded. -/
def executeCommand (shell command : String) (workingDir : Option String) : ExecuteRequest :=
  { command := shell ++ " /c " ++ command, timeout := 30000 }

/-- toolHandlers handleShellCommand on a completed server round trip: copy
success, output and error from the server body into the ToolResponse,
dropping the exitCode field. -/
def handleShellCommand (result : ExecResult) : ToolResponse :=
  { success := result.success
  , output := some (ToolOutput.shellOut result.output)
  , error := some result.error }

/-- End to end path of one completed shell command: the process outcome
through ExecuteFileTool.execute and handleShellCommand. -/
def shellEndToEnd (p : ProcessResult) : ToolResponse :=
  handleShellCommand (ExecuteFileTool.execute p)

/- Concrete fixtures used by witnesses and counterexamples. -/

/-- A trivial successful tool response. -/
def okResponse : ToolResponse := { success := true }

/-- A handler environment where every handler completes successfully. -/
def handlersA : Handlers :=
  { database := fun _ _ _ => Except.ok okResponse
  , shell := fun _ _ _ => Except.ok okResponse
  , altair := fun _ => Except.ok okResponse }

/-- A handler environment whose database handler answers differently. -/
def handlersB : Handlers :=
  { database := fun _ _ _ => Except.ok { success := false, error := some "other" }
  , shell := fun _ _ _ => Except.ok okResponse
  , altair := fun _ => Except.ok okResponse }

/-- A render call with id a. -/
def callA : FunctionCall := { name := "render_altair", id := "a", args := {} }

/-- A render call with id b. -/
def callB : FunctionCall := { name := "render_altair", id := "b", args := {} }

/-- A query call with an empty argument bag. -/
def callQ : FunctionCall := { name := "query_database", id := "q1", args := {} }

/-- A database oracle that answers every query with an empty result. -/
def envOk : DbEnv := { runQuery := fun _ _ => Except.ok { rows := [], rowCount := some 0 } }

/-- The pool with no bookkept activity. -/
def pool0 : PoolState := { acquired := 0, released := 0 }

/- Helper lemmas. -/

/-- The envelope of a call always carries the id given to the dispatcher,
whichever branch produced it. -/
lemma responseEnvelope_id (h : Handlers) (c : FunctionCall) (fid : String) :
    (responseEnvelope h c fid).id = fid := by
  unfold responseEnvelope
  cases dispatchOutcome h c <;> rfl

/-- The batch responses are exactly one envelope per call, in call order. -/
lemma batchResponses_eq_map (h : Handlers) (calls : List FunctionCall) :
    batchResponses h calls = calls.map (fun c => responseEnvelope h c c.id) := by
  induction calls with
  | nil => rfl
  | cons c cs ih =>
    simp only [batchResponses, onToolCall, List.map_cons, List.flatMap_cons] at *
    simpa [handleToolCall] using ih

/-- The ids of the batch responses are the ids of the calls, in order. -/
lemma batchResponses_ids (h : Handlers) (calls : List FunctionCall) :
    (batchResponses h calls).map (fun r => r.id) = calls.map (fun c => c.id) := by
  rw [batchResponses_eq_map]
  induction calls with
  | nil => rfl
  | cons c cs ih => simp [responseEnvelope_id, ih]

/-- A whitespace character is unchanged by toLower. -/
lemma whitespace_toLower {c : Char} (h : c.isWhitespace = true) : c.toLower = c := by
  simp only [Char.isWhitespace, Bool.or_eq_true, decide_eq_true_eq] at h
  rcases h with ((h | h) | h) | h <;> subst h <;> decide

/-- Trimming yields the empty list exactly when every character is
whitespace. -/
lemma trimChars_eq_nil_iff (l : List Char) :
    trimChars l = [] ↔ ∀ c ∈ l, c.isWhitespace = true := by
  unfold trimChars
  constructor
  · intro h
    have h1 : (l.dropWhile Char.isWhitespace).reverse.dropWhile Char.isWhitespace = [] := by
      rw [← List.reverse_eq_nil_iff]
      exact h
    have h2 : ∀ c ∈ l.dropWhile Char.isWhitespace, c.isWhitespace = true := by
      intro c hc
      exact List.dropWhile_eq_nil_iff.mp h1 c (List.mem_reverse.mpr hc)
    intro c hc
    rw [← List.takeWhile_append_dropWhile (p := Char.isWhitespace) (l := l)] at hc
    rcases List.mem_append.mp hc with hc | hc
    · exact List.mem_takeWhile_imp hc
    · exact h2 c hc
  · intro h
    rw [List.dropWhile_eq_nil_iff.mpr h]
    rfl

/-- If a list trims to nothing then so does its toLower image. -/
lemma trimChars_map_toLower {l : List Char} (h : trimChars l = []) :
    trimChars (l.map Char.toLower) = [] := by
  rw [trimChars_eq_nil_iff] at h ⊢
  intro c hc
  rcases List.mem_map.mp hc with ⟨d, hd, rfl⟩
  rw [whitespace_toLower (h d hd)]
  exact h d hd

/-- A whitespace-only string stays empty after lowering and trimming. -/
lemma jsTrim_toLower_eq_empty {q : String} (h : jsTrim q = "") :
    jsTrim (jsToLower q) = "" := by
  have hd : trimChars q.data = [] := congrArg String.data h
  have : trimChars ((jsToLower q).data) = [] := trimChars_map_toLower hd
  unfold jsTrim
  rw [this]

/-- The empty string contains no occurrence of drop. -/
lemma jsIncludes_empty_drop : jsIncludes "" "drop" = false := by decide

/-- The empty string contains no occurrence of truncate. -/
lemma jsIncludes_empty_truncate : jsIncludes "" "truncate" = false := by decide

/-- C1: for every batch of calls and every handler environment, faulting
handlers included, the dispatcher produces exactly one response per call,
each response carries the correlation id of its originating call, the
response id sequence equals the call id sequence, and when the input ids are
distinct every input id occurs exactly once among the responses. No handler
fault escapes: the dispatch is a total function of the batch. -/
theorem C1_batch_response_correlation (h : Handlers) (calls : List FunctionCall) :
    (batchResponses h calls).length = calls.length ∧
    (batchResponses h calls).map (fun r => r.id) = calls.map (fun c => c.id) ∧
    ((calls.map (fun c => c.id)).Nodup →
      ∀ c ∈ calls, ((batchResponses h calls).map (fun r => r.id)).count c.id = 1) := by
  have hm := batchResponses_ids h calls
  refine ⟨?_, hm, ?_⟩
  · have := congrArg List.length hm
    simpa using this
  · intro hnd c hc
    rw [hm]
    exact List.count_eq_one_of_mem hnd (List.mem_map_of_mem _ hc)

/-- C1 witness: a concrete two-call batch under a concrete handler
environment, where the id of the first call occurs exactly once among the
responses. -/
theorem C1_batch_response_correlation_witness :
    ((batchResponses handlersA [callA, callB]).map (fun r => r.id)).count callA.id = 1 :=
  (C1_batch_response_correlation handlersA [callA, callB]).2.2 (by decide) callA
    (List.mem_cons_self callA [callB])

/-- C2: a call whose name is none of the three registered capabilities is
answered, under every handler environment, by exactly one failure response
whose error message is Unknown function followed by the name, carrying the
correlation id passed to the dispatcher; handleToolCall is total, so it
never throws. -/
theorem C2_unknown_function_failure (h : Handlers) (c : FunctionCall) (fid : String)
    (h1 : c.name ≠ "query_database") (h2 : c.name ≠ "execute_shell_command")
    (h3 : c.name ≠ "render_altair") :
    handleToolCall h c fid =
      { functionResponses :=
          [{ output := { success := false, output := none,
                         error := some ("Unknown function: " ++ c.name) }, id := fid }] } := by
  unfold handleToolCall responseEnvelope dispatchOutcome
  simp [h1, h2, h3]

/-- C2 witness: the concrete call named bogus yields the failure envelope
with message Unknown function: bogus. -/
theorem C2_unknown_function_failure_witness :
    handleToolCall handlersA { name := "bogus", id := "b1", args := {} } "b1" =
      { functionResponses :=
          [{ output := { success := false, output := none,
                         error := some ("Unknown function: " ++ "bogus") }, id := "b1" }] } :=
  C2_unknown_function_failure handlersA { name := "bogus", id := "b1", args := {} } "b1"
    (by decide) (by decide) (by decide)

/-- C3: evaluation of the code at the failing input. A query_database call
with the enum-supplied lowercase operation delete and a query with no WHERE
clause passes validateQuery (the guard compares the operation against the
uppercase literal DELETE while the route forwards the original lowercase
string), so the route executes the unbounded delete: a connection is taken
from the pool and the oracle result is returned. The same call with the
uppercase operation DELETE is rejected, which shows the guard the code
intended. -/
theorem C3_lowercase_delete_executes :
    DatabaseService.validateQuery "delete from users" "delete" = Except.ok () ∧
    postQuery envOk (some "delete from users") (some "delete") none pool0 =
      (QueryRouteResult.ok { rows := [], rowCount := 0 }, { acquired := 1, released := 1 }) ∧
    DatabaseService.validateQuery "delete from users" "DELETE" =
      Except.error "DELETE operations require a WHERE clause" :=
  ⟨rfl, by decide, rfl⟩

/-- C4 counterexample: the dispatcher does not fail closed on missing
required arguments. First, the response to a query_database call with an
empty argument bag depends on the injected database handler, so the absent
arguments are passed through to the handler instead of being rejected at the
dispatch boundary. Second, a call whose operation is LIST_TABLES and whose
required query argument is absent succeeds rather than failing. -/
theorem C4_dispatcher_forwards_missing_args :
    handleToolCall handlersA callQ "q1" ≠ handleToolCall handlersB callQ "q1" ∧
    (queryEndToEnd envOk { operation := some "LIST_TABLES" } pool0).1.success = true :=
  ⟨by decide, by decide⟩

/-- C4 as amended: the missing-argument rejection happens in the backend
route, which checks operation before query. An absent operation yields the
failure message Operation type is required, and an absent query with a
present operation other than LIST_TABLES yields Query is required for this
operation; in both cases nothing is silently defaulted into an executed
query: the pool state is unchanged and the result is independent of the
database oracle. -/
theorem C4_missing_arg_yields_failure (env : DbEnv) (a : Args) (s : PoolState) :
    (a.operation = none →
      queryEndToEnd env a s =
        ({ success := false, error := some "Operation type is required" }, s)) ∧
    (∀ op, a.operation = some op → op ≠ "" → op ≠ "LIST_TABLES" → a.query = none →
      queryEndToEnd env a s =
        ({ success := false, error := some "Query is required for this operation" }, s)) := by
  constructor
  · intro h0
    unfold queryEndToEnd handleDatabaseQuery clientExecuteQuery postQuery
    rw [h0]
    rfl
  · intro op hop hne hnlt hq
    unfold queryEndToEnd handleDatabaseQuery clientExecuteQuery postQuery
    rw [hop, hq]
    simp [isFalsy, hne, hnlt]

/-- C4 witness: the concrete call with an empty argument bag fails with the
message Operation type is required and leaves the pool untouched. -/
theorem C4_missing_arg_yields_failure_witness :
    queryEndToEnd envOk {} pool0 =
      ({ success := false, error := some "Operation type is required" }, pool0) :=
  (C4_missing_arg_yields_failure envOk {} pool0).1 rfl

/-- C5: a query whose lowercased trimmed text contains drop or truncate is
rejected by safeExecute with the message Unsafe query detected; the pool
state is returned unchanged, so no connection is taken, and the result holds
for every database oracle, so the query is never executed. -/
theorem C5_forbidden_keyword_rejected (env : DbEnv) (q op : String)
    (p : Option (List String)) (s : PoolState)
    (hk : jsIncludes (jsTrim (jsToLower q)) "drop" = true ∨
          jsIncludes (jsTrim (jsToLower q)) "truncate" = true) :
    DatabaseService.safeExecute env q op p s = (Except.error "Unsafe query detected", s) := by
  have hne : ¬ jsTrim q = "" := by
    intro h0
    have h1 := jsTrim_toLower_eq_empty h0
    rcases hk with hk | hk <;> rw [h1] at hk
    · rw [jsIncludes_empty_drop] at hk
      exact Bool.false_ne_true hk
    · rw [jsIncludes_empty_truncate] at hk
      exact Bool.false_ne_true hk
  have hor : (jsIncludes (jsTrim (jsToLower q)) "drop" ||
      jsIncludes (jsTrim (jsToLower q)) "truncate") = true := by
    rcases hk with hk | hk <;> simp [hk]
  unfold DatabaseService.safeExecute DatabaseService.validateQuery
  rw [if_neg hne]
  simp only [hor, if_true]

/-- C5 witness: the concrete query DROP TABLE x is rejected as unsafe with
the pool untouched. -/
theorem C5_forbidden_keyword_rejected_witness :
    DatabaseService.safeExecute envOk "DROP TABLE x" "SELECT" none pool0 =
      (Except.error "Unsafe query detected", pool0) :=
  C5_forbidden_keyword_rejected envOk "DROP TABLE x" "SELECT" none pool0 (Or.inl (by decide))

/-- C6: every execution through DatabaseService.executeQuery acquires
exactly one connection and releases exactly one connection before returning,
for every database oracle, hence on the success path and on every query
fault path alike; the driver result is passed through unchanged. -/
theorem C6_connection_released_once (env : DbEnv) (q : String)
    (p : Option (List String)) (s : PoolState) :
    (DatabaseService.executeQuery env q p s).2.released = s.released + 1 ∧
    (DatabaseService.executeQuery env q p s).2.acquired = s.acquired + 1 ∧
    (DatabaseService.executeQuery env q p s).1 = env.runQuery q p :=
  ⟨rfl, rfl, rfl⟩

/-- C7 counterexample: the exit code is not delivered end to end. Two
completed commands that differ only in their non-zero exit codes produce
identical end-to-end envelopes, so no reading of the delivered envelope can
recover the exit code. -/
theorem C7_exit_code_not_delivered :
    shellEndToEnd { err := some 2, stdout := "out", stderr := "err" } =
      shellEndToEnd { err := some 3, stdout := "out", stderr := "err" } ∧
    ¬ ∃ f : ToolResponse → Int,
        ∀ (p : ProcessResult) (c : Int), p.err = some c → f (shellEndToEnd p) = c := by
  refine ⟨rfl, ?_⟩
  rintro ⟨f, hf⟩
  have h2 := hf { err := some 2, stdout := "out", stderr := "err" } 2 rfl
  have h3 := hf { err := some 3, stdout := "out", stderr := "err" } 3 rfl
  exact absurd (h2.symm.trans h3) (by decide)

/-- C7 as amended: a command that completes with a non-zero exit status is
reported by the server body as success false together with the exit code,
stdout and stderr; the end-to-end envelope keeps success false, stdout and
stderr but drops the exit code; and the dispatcher transports a normally
completing handler result verbatim through the success path, never
converting it into a dispatcher-level failure envelope. -/
theorem C7_nonzero_exit_success_envelope (p : ProcessResult) (c : Int)
    (hc : p.err = some c) (h : Handlers) (call : FunctionCall) (fid : String)
    (r : ToolResponse) (hok : dispatchOutcome h call = Except.ok r) :
    ExecuteFileTool.execute p =
      { success := false, exitCode := some c, output := p.stdout, error := p.stderr } ∧
    shellEndToEnd p =
      { success := false, output := some (ToolOutput.shellOut p.stdout),
        error := some p.stderr } ∧
    handleToolCall h call fid = { functionResponses := [{ output := r, id := fid }] } := by
  refine ⟨?_, ?_, ?_⟩
  · unfold ExecuteFileTool.execute
    rw [hc]
    rfl
  · unfold shellEndToEnd handleShellCommand ExecuteFileTool.execute
    rw [hc]
    rfl
  · unfold handleToolCall responseEnvelope
    rw [hok]

/-- C7 witness: a concrete command that exited with status 2 yields the
end-to-end envelope with success false, its stdout and its stderr. -/
theorem C7_nonzero_exit_success_envelope_witness :
    shellEndToEnd { err := some 2, stdout := "out", stderr := "err" } =
      { success := false, output := some (ToolOutput.shellOut "out"),
        error := some "err" } :=
  (C7_nonzero_exit_success_envelope { err := some 2, stdout := "out", stderr := "err" } 2 rfl
    handlersA callA "a" okResponse rfl).2.1

/-- C9 counterexample: for a concrete batch of two calls the dispatcher
performs two sendToolResponse invocations, each carrying a single response,
not one invocation carrying the full sequence. -/
theorem C9_send_once_per_call_not_per_batch :
    (onToolCall handlersA [callA, callB]).length = 2 ∧
    (onToolCall handlersA [callA, callB]).map (fun p => p.functionResponses.length) = [1, 1] ∧
    (2 : Nat) ≠ 1 :=
  ⟨rfl, rfl, by decide⟩

/-- C9 as amended: the dispatcher hands the responses to sendToolResponse
once per call, not once per batch: a batch of N calls produces exactly N
send invocations, each carrying a single-element functionResponses
sequence. -/
theorem C9_one_send_per_call (h : Handlers) (calls : List FunctionCall) :
    (onToolCall h calls).length = calls.length ∧
    ∀ p ∈ onToolCall h calls, p.functionResponses.length = 1 := by
  constructor
  · simp [onToolCall]
  · intro p hp
    rcases List.mem_map.mp hp with ⟨c, _, rfl⟩
    rfl

/-- C9 witness: a concrete one-call batch produces one send invocation whose
payload holds exactly one response. -/
theorem C9_one_send_per_call_witness :
    (onToolCall handlersA [callA]).length = [callA].length ∧
    (handleToolCall handlersA callA callA.id).functionResponses.length = 1 :=
  ⟨(C9_one_send_per_call handlersA [callA]).1,
   (C9_one_send_per_call handlersA [callA]).2 (handleToolCall handlersA callA callA.id)
     (by simp [onToolCall])⟩

/-- C10: executeCommand always posts the request whose command string is
exactly the shell name, the literal /c switch and the command, with the
fixed timeout 30000, for every shell string uniformly; the result does not
depend on the workingDir argument, which is silently discarded. -/
theorem C10_execute_command_request (shell command : String) (wd : Option String) :
    executeCommand shell command wd =
      { command := shell ++ " /c " ++ command, timeout := 30000 } ∧
    ∀ wd2 : Option String, executeCommand shell command wd = executeCommand shell command wd2 :=
  ⟨rfl, fun _ => rfl⟩

end WhatAGent
